import Mathlib

/-!
Shallow embedding of `src/futures_math.py`, the futures-math engine:
time utilities, cost-of-carry pricing, basis and annualization, funding
cashflow accounting, cash-and-carry PnL, and funding-rate prediction.

The purely arithmetic functions are embedded over `ℚ` (exact rational
semantics for Python float arithmetic), so they are executable.  The
transcendental pricing functions (`math.exp`, float power `**`) are
embedded over `ℝ`.  Python's `float('nan')` sentinel is modelled as
`Option.none`, and the `ZeroDivisionError` raised by float division by
zero as `Except.error`.
-/

/-- The `Side` literal type: `"long"` or `"short"`. -/
inductive Side where
  | long
  | short
deriving DecidableEq

/-- Error kind for the one failing operation (`basis` at `S = 0`). -/
inductive FuturesError where
  | divisionError
deriving DecidableEq

/-- `year_fraction(start_ts, end_ts)`: ACT/365F year fraction between two
POSIX timestamps, `max(1e-12, (end_ts - start_ts) / (365.0 * 24.0 * 3600.0))`. -/
def year_fraction (start_ts end_ts : ℚ) : ℚ :=
  max (1 / 10 ^ 12) ((end_ts - start_ts) / (365 * 24 * 3600))

/-- `cost_of_carry_fair_price(S, r_annual, c_annual, T_years)`:
`S * exp((r_annual - c_annual) * T_years)`. -/
noncomputable def cost_of_carry_fair_price (S r_annual c_annual T_years : ℝ) : ℝ :=
  S * Real.exp ((r_annual - c_annual) * T_years)

/-- `basis(F, S) = (F - S) / S`.  Python float division raises
`ZeroDivisionError` when `S = 0`, modelled as `Except.error`. -/
noncomputable def basis (F S : ℝ) : Except FuturesError ℝ :=
  if S = 0 then Except.error FuturesError.divisionError
  else Except.ok ((F - S) / S)

/-- `annualize_basis(b, T_years)`: returns `float('nan')` (modelled as
`none`) when `T_years <= 0`, otherwise `(1.0 + b) ** (1.0 / T_years) - 1.0`
(real power). -/
noncomputable def annualize_basis (b T_years : ℝ) : Option ℝ :=
  if T_years ≤ 0 then none
  else some ((1 + b) ^ (1 / T_years) - 1)

/-- `funding_cashflows(notional_usd, funding_rates, side)`:
`sgn = -1.0 if side == "long" else 1.0`, then
`notional_usd * sgn * sum(funding_rates)`. -/
def funding_cashflows (notional_usd : ℚ) (funding_rates : List ℚ) (side : Side) : ℚ :=
  let sgn : ℚ := if side = Side.long then -1 else 1
  notional_usd * sgn * funding_rates.sum

/-- `cash_and_carry_pnl(spot_qty, entry_price, funding_rates, fees_bps_per_leg)`:
`notional = spot_qty * entry_price`,
`fees = notional * (fees_bps_per_leg / 10000.0) * 2.0`,
`funding_pnl = funding_cashflows(notional, funding_rates, "short")`,
returns `funding_pnl - fees`.  (Python default `fees_bps_per_leg = 0.0` is
passed explicitly by callers here.) -/
def cash_and_carry_pnl (spot_qty entry_price : ℚ) (funding_rates : List ℚ)
    (fees_bps_per_leg : ℚ) : ℚ :=
  let notional := spot_qty * entry_price
  let fees := notional * (fees_bps_per_leg / 10000) * 2
  let funding_pnl := funding_cashflows notional funding_rates Side.short
  funding_pnl - fees

/-- `clamp(x, lo, hi) = max(lo, min(hi, x))`. -/
def clamp (x lo hi : ℚ) : ℚ := max lo (min hi x)

/-- Python default value of the `interest_per_interval` parameter of
`predicted_funding_from_premium`: `0.0001`. -/
def default_interest_per_interval : ℚ := 1 / 10000

/-- `predicted_funding_from_premium(premium_index, interest_per_interval)`:
`adj = clamp(interest_per_interval - premium_index, -0.0005, 0.0005)`,
returns `premium_index + adj`. -/
def predicted_funding_from_premium (premium_index interest_per_interval : ℚ) : ℚ :=
  let adj := clamp (interest_per_interval - premium_index) (-(5 / 10000)) (5 / 10000)
  premium_index + adj

/-- Helper: `funding_cashflows` from the short side is the notional times
the sum of the rates. -/
theorem funding_cashflows_short_eq (N : ℚ) (rs : List ℚ) :
    funding_cashflows N rs Side.short = N * rs.sum := by
  simp [funding_cashflows]

/-- C1: `funding_cashflows` returns the notional times the sum of the rates,
with sign `-1` for `side = long` and `+1` for `side = short`; in particular a
single rate `r` yields `-N*r` for long and `N*r` for short. -/
theorem funding_cashflows_sign_times_sum (N r : ℚ) (rs : List ℚ) :
    funding_cashflows N rs Side.long = -(N * rs.sum) ∧
    funding_cashflows N rs Side.short = N * rs.sum ∧
    funding_cashflows N [r] Side.long = -(N * r) ∧
    funding_cashflows N [r] Side.short = N * r := by
  refine ⟨?_, ?_, ?_, ?_⟩ <;> simp [funding_cashflows]

/-- C2: `cash_and_carry_pnl` equals `funding_cashflows(spot_qty*entry_price,
funding_rates, "short")` minus `spot_qty*entry_price*(fees_bps_per_leg/10000)*2`;
in particular `cash_and_carry_pnl(1, 100, [0.0001, 0.0001], 1) = 0`. -/
theorem cash_and_carry_pnl_eq (q p f : ℚ) (rs : List ℚ) :
    cash_and_carry_pnl q p rs f
      = funding_cashflows (q * p) rs Side.short - q * p * (f / 10000) * 2 ∧
    cash_and_carry_pnl 1 100 [1 / 10000, 1 / 10000] 1 = 0 := by
  constructor
  · rfl
  · simp only [cash_and_carry_pnl, funding_cashflows_short_eq]
    norm_num

/-- C3: `predicted_funding_from_premium(p, i) = p + max(-0.0005, min(0.0005,
i - p))`, and at premium `0.01` with the default interest `0.0001` it
returns `0.0095`. -/
theorem predicted_funding_from_premium_eq (p i : ℚ) :
    predicted_funding_from_premium p i
      = p + max (-(5 / 10000)) (min (5 / 10000) (i - p)) ∧
    predicted_funding_from_premium (1 / 100) default_interest_per_interval
      = 95 / 10000 := by
  constructor
  · rfl
  · norm_num [predicted_funding_from_premium, clamp, default_interest_per_interval,
      min_def, max_def]

/-- C6: `year_fraction` returns `max(1e-12, (end - start) / (365*86400))`
for every pair of timestamps, hence is always at least `1e-12` and strictly
positive, even for inverted or zero-length intervals. -/
theorem year_fraction_spec (s e : ℚ) :
    year_fraction s e = max (1 / 10 ^ 12) ((e - s) / (365 * 86400)) ∧
    1 / 10 ^ 12 ≤ year_fraction s e ∧
    0 < year_fraction s e := by
  refine ⟨by norm_num [year_fraction], le_max_left _ _, ?_⟩
  exact lt_of_lt_of_le (by norm_num) (le_max_left _ _)

/-- C8: `funding_cashflows` is invariant under any permutation of the
funding-rate sequence. -/
theorem funding_cashflows_perm_invariant (N : ℚ) (side : Side)
    (rs rs2 : List ℚ) (h : rs.Perm rs2) :
    funding_cashflows N rs side = funding_cashflows N rs2 side := by
  simp [funding_cashflows, h.sum_eq]

/-- Witness for C8 at `N = 5`, `side = long`, `[1, 2] ~ [2, 1]`. -/
theorem funding_cashflows_perm_invariant_witness :
    funding_cashflows 5 [1, 2] Side.long = funding_cashflows 5 [2, 1] Side.long :=
  funding_cashflows_perm_invariant 5 Side.long [1, 2] [2, 1] (List.Perm.swap 2 1 [])

/-- C9: when `interest_per_interval - premium_index` lies inside the clamp
band `[-0.0005, 0.0005]`, `predicted_funding_from_premium` returns exactly
`interest_per_interval`. -/
theorem predicted_funding_from_premium_interior (p i : ℚ)
    (h1 : -(5 / 10000) ≤ i - p) (h2 : i - p ≤ 5 / 10000) :
    predicted_funding_from_premium p i = i := by
  show p + clamp (i - p) (-(5 / 10000)) (5 / 10000) = i
  rw [clamp, min_eq_right h2, max_eq_right h1]
  ring

/-- Witness for C9 at `p = i = 0.0001`. -/
theorem predicted_funding_from_premium_interior_witness :
    predicted_funding_from_premium (1 / 10000) (1 / 10000) = 1 / 10000 :=
  predicted_funding_from_premium_interior (1 / 10000) (1 / 10000)
    (by norm_num) (by norm_num)

/-- C4: `annualize_basis` returns the NaN sentinel (modelled as `none`,
never an exception) whenever `T_years ≤ 0`, and for `T_years > 0` returns
`(1 + b) ^ (1 / T_years) - 1`; in particular `annualize_basis b 1 = b` for
every `b`. -/
theorem annualize_basis_spec (b T : ℝ) :
    (T ≤ 0 → annualize_basis b T = none) ∧
    (0 < T → annualize_basis b T = some ((1 + b) ^ (1 / T) - 1)) ∧
    annualize_basis b 1 = some b := by
  refine ⟨fun h => by simp [annualize_basis, h],
    fun h => by simp [annualize_basis, not_le.mpr h], ?_⟩
  norm_num [annualize_basis]

/-- Witness for C4 at `T = -1` (sentinel), `T = 2` (formula) and `T = 1`. -/
theorem annualize_basis_spec_witness :
    annualize_basis 0 (-1) = none ∧
    annualize_basis 0 2 = some ((1 + 0) ^ (1 / (2 : ℝ)) - 1) ∧
    annualize_basis (1 / 2) 1 = some (1 / 2) :=
  ⟨(annualize_basis_spec 0 (-1)).1 (by norm_num),
   (annualize_basis_spec 0 2).2.1 (by norm_num),
   (annualize_basis_spec (1 / 2) 1).2.2⟩

/-- C5: `basis` fails with the division error exactly when `S = 0` (the
error value propagates to the caller, nothing is recovered internally), and
otherwise returns `(F - S) / S`. -/
theorem basis_spec (F S : ℝ) :
    (S = 0 → basis F S = Except.error FuturesError.divisionError) ∧
    (S ≠ 0 → basis F S = Except.ok ((F - S) / S)) :=
  ⟨fun h => by simp [basis, h], fun h => by simp [basis, h]⟩

/-- Witness for C5 at `S = 0` (failure) and `S = 1` (success). -/
theorem basis_spec_witness :
    basis 1 0 = Except.error FuturesError.divisionError ∧
    basis 3 1 = Except.ok ((3 - 1) / 1) :=
  ⟨(basis_spec 1 0).1 rfl, (basis_spec 3 1).2 (by norm_num)⟩

/-- C7 counterexample: at `S = 1, r = 1, c = 0, T = 1` the round trip
`annualize_basis (basis (cost_of_carry_fair_price S r c T) S) T` returns
`exp 1 - 1`, which exceeds `r - c = 1` by more than `1/2` — far beyond any
floating-point tolerance. -/
theorem roundtrip_counterexample :
    ((basis (cost_of_carry_fair_price 1 1 0 1) 1).toOption.bind
        fun b => annualize_basis b 1)
      = some (Real.exp 1 - 1) ∧
    1 / 2 < (Real.exp 1 - 1) - (1 - 0) := by
  constructor
  · rw [cost_of_carry_fair_price, basis, if_neg (one_ne_zero (α := ℝ))]
    norm_num [annualize_basis, Except.toOption]
  · have h := Real.exp_one_gt_d9
    norm_num at h ⊢
    linarith

/-- C7 (amended): for every `S > 0`, every `r` and `c`, and every `T > 0`,
annualizing the basis of the cost-of-carry fair price recovers exactly
`exp(r - c) - 1` (independent of `T`); this is the first-order
approximation of `r - c`, not `r - c` itself up to floating-point
tolerance. -/
theorem roundtrip_annualized_basis (S r c T : ℝ) (hS : 0 < S) (hT : 0 < T) :
    ((basis (cost_of_carry_fair_price S r c T) S).toOption.bind
        fun b => annualize_basis b T)
      = some (Real.exp (r - c) - 1) := by
  have hS0 : S ≠ 0 := ne_of_gt hS
  have hT0 : T ≠ 0 := ne_of_gt hT
  rw [cost_of_carry_fair_price, basis, if_neg hS0]
  show annualize_basis ((S * Real.exp ((r - c) * T) - S) / S) T = _
  rw [annualize_basis, if_neg (not_le.mpr hT)]
  have h1 : (S * Real.exp ((r - c) * T) - S) / S = Real.exp ((r - c) * T) - 1 := by
    field_simp
    ring
  have h2 : Real.exp ((r - c) * T) ^ (1 / T) = Real.exp (r - c) := by
    rw [← Real.exp_mul, mul_one_div, mul_div_assoc, div_self hT0, mul_one]
  rw [h1, add_sub_cancel, h2]

/-- Witness for C7 (amended) at `S = 1, r = 0, c = 0, T = 1`. -/
theorem roundtrip_annualized_basis_witness :
    ((basis (cost_of_carry_fair_price 1 0 0 1) 1).toOption.bind
        fun b => annualize_basis b 1)
      = some (Real.exp (0 - 0) - 1) :=
  roundtrip_annualized_basis 1 0 0 1 one_pos one_pos

/-- C10: `funding_cashflows` on the empty rate sequence returns `0` for
every notional and either side. -/
theorem funding_cashflows_nil (N : ℚ) (side : Side) :
    funding_cashflows N [] side = 0 := by
  simp [funding_cashflows]
